import Mathlib

/-!  Verification of the PerspectiveFields core: gravity-field synthesis and
encoding (perspective2d/data/gravity_transform.py) and evaluator composition
with distributed reduction (perspective2d/evaluation/perspective_evaluation.py),
shallowly embedded over the reals.  External collaborators (PanoCam geometry,
the bin encoder, the HDF5 store, the detectron2 communication primitives) are
passed in as opaque parameters, exactly as the source treats them. -/

/-- A dense 3-axis numpy/torch array over the reals: a shape triple together
with a total indexing function (entries outside the shape are irrelevant). -/
structure Arr3 where
  shape : ℕ × ℕ × ℕ
  data : ℕ → ℕ → ℕ → ℝ

/-- Row k of the flattened meshgrid `start` array built in absvvp_to_arrow:
`np.meshgrid(np.arange(0, im_w), np.arange(0, im_h))` flattened row-major and
stacked/transposed gives pixel (x, y) = (k mod im_w, k div im_w). -/
def startPt (im_w : ℕ) (k : ℕ) : ℝ × ℝ :=
  (((k % im_w : ℕ) : ℝ), ((k / im_w : ℕ) : ℝ))

/-- One row of sklearn.preprocessing.normalize (default l2 norm, axis=1):
divide the row by its Euclidean norm, where a zero norm is first replaced by
1, so that a zero row is left as the zero row. -/
noncomputable def sklearn_normalize_row (v : ℝ × ℝ) : ℝ × ℝ :=
  let n := Real.sqrt (v.1 ^ 2 + v.2 ^ 2)
  let n' := if n = 0 then 1 else n
  (v.1 / n', v.2 / n')

/-- Mathematical unit normalization with the zero vector clamped to zero;
used to state "normalize the displacement to unit length". -/
noncomputable def normalize_spec (v : ℝ × ℝ) : ℝ × ℝ :=
  if v = (0, 0) then (0, 0)
  else (v.1 / Real.sqrt (v.1 ^ 2 + v.2 ^ 2), v.2 / Real.sqrt (v.1 ^ 2 + v.2 ^ 2))

/-- Euclidean norm of a 2-vector. -/
noncomputable def l2norm (v : ℝ × ℝ) : ℝ := Real.sqrt (v.1 ^ 2 + v.2 ^ 2)

/-- Flat row k of `normalize(absvvp[:2] - start) * absvvp[2]` in
GravityTransform.absvvp_to_arrow. -/
noncomputable def arrowAt (im_w : ℕ) (absvvp : ℝ × ℝ × ℝ) (k : ℕ) : ℝ × ℝ :=
  let s := startPt im_w k
  let u := sklearn_normalize_row (absvvp.1 - s.1, absvvp.2.1 - s.2)
  (u.1 * absvvp.2.2, u.2 * absvvp.2.2)

/-- GravityTransform.absvvp_to_arrow: build the flat (im_h*im_w, 2) arrow
array from the meshgrid start points and reshape it row-major to
(im_h, im_w, 2), so entry (i, j, c) is component c of flat row i*im_w+j. -/
noncomputable def absvvp_to_arrow (im_h im_w : ℕ) (absvvp : ℝ × ℝ × ℝ) : Arr3 :=
  { shape := (im_h, im_w, 2)
    data := fun i j c =>
      if c = 0 then (arrowAt im_w absvvp (i * im_w + j)).1
      else (arrowAt im_w absvvp (i * im_w + j)).2 }

/-- numpy transpose(2, 0, 1): channel-last (h, w, c) to channel-first
(c, h, w); the new entry (i, j, k) is the old entry (j, k, i). -/
def transpose201 (a : Arr3) : Arr3 :=
  { shape := (a.shape.2.2, a.shape.1, a.shape.2.1)
    data := fun i j k => a.data j k i }

/-- numpy transpose(1, 2, 0): channel-first (c, h, w) to channel-last
(h, w, c); the new entry (i, j, k) is the old entry (k, i, j). -/
def transpose120 (a : Arr3) : Arr3 :=
  { shape := (a.shape.2.1, a.shape.2.2, a.shape.1)
    data := fun i j k => a.data k i j }

/-- numpy astype("float32") followed by torch.as_tensor: the embedding works
over the reals, where the 32-bit cast is the identity on values. -/
def astype_float32 (a : Arr3) : Arr3 := a

/-- GravityTransform.to_tensor_from_field: convert the field to channel-first
float layout, then bin it only when loss_type is "classification"; encode_bin
is the external binning collaborator and num_class its class count.  The
source has no else branch after the if/elif ladder, so any other loss_type
falls through and the converted, unbinned field is returned. -/
def to_tensor_from_field (encode_bin : Arr3 → ℕ → Arr3)
    (loss_type : String) (num_class : ℕ) (gfield : Arr3) : Arr3 :=
  let g := astype_float32 (transpose201 gfield)
  if loss_type = "regression" then g
  else if loss_type = "classification" then encode_bin g num_class
  else g

/-- GravityTransform.to_tensor: synthesize the field from the vanishing point
with absvvp_to_arrow, then encode exactly as to_tensor_from_field does. -/
noncomputable def to_tensor (encode_bin : Arr3 → ℕ → Arr3) (loss_type : String)
    (num_class : ℕ) (im_h im_w : ℕ) (absvvp : ℝ × ℝ × ℝ) : Arr3 :=
  let gfield := absvvp_to_arrow im_h im_w absvvp
  let g := astype_float32 (transpose201 gfield)
  if loss_type = "regression" then g
  else if loss_type = "classification" then encode_bin g num_class
  else g

/-- Errors GravityTransform.get_input_label can raise: the explicit
`raise NotImplementedError` for a dataset name outside the dispatch ladder,
and Python's UnboundLocalError when a branch reads the local `absvvp` (or
`gt_gfield_original`) before any assignment to it. -/
inductive GTErr where
  | notImplementedError
  | unboundLocalError
deriving DecidableEq

/-- The fields of one dataset_dict example that get_input_label consumes. -/
structure DatasetDict where
  dataset : String
  height : ℕ
  width : ℕ
  roll : ℝ
  pitch : ℝ
  vfov : ℝ
  vvp_abs : ℝ × ℝ × ℝ
  gravity_file_name : String

/-- External PanoCam geometry collaborator (perspective2d.utils.panocam).
The horizon-line and relative-vanishing-point representations are opaque
types H and V; angle arguments are (elevation, roll, vfov) in radians,
followed by the image height and width. -/
structure PanoCamAPI (H V : Type) where
  getRelativeHorizonLineFromAngles : ℝ → ℝ → ℝ → ℕ → ℕ → H
  getRelativeVVP : ℝ → ℝ → ℝ → ℕ → ℕ → V
  getAbsVVP : ℕ → ℕ → H → V → ℝ × ℝ × ℝ
  getGravityField : ℕ → ℕ → (ℝ × ℝ × ℝ) → Arr3

/-- The angle-labeled dataset families of the first dispatch branch. -/
def angleDatasets : List String :=
  ["cities360", "rgbdpano", "sun360", "tartanair", "stanford2d3d",
   "objectron", "gsv", "edina"]

/-- The dataset families whose absolute vanishing point is stored in the
example (the warp/crop branch; "hypersim" has its own identical branch). -/
def vvpStoredDatasets : List String :=
  ["sun360_warp", "sun360_crop", "sun360_uncrop", "tartanair_warp",
   "tartanair_crop", "stanford2d3d_warp", "stanford2d3d_crop",
   "objectron_crop", "objectron_crop_mask", "gsv_crop", "edina_crop"]

/-- Every dataset name the get_input_label dispatch ladder enumerates. -/
def knownDatasets : List String :=
  angleDatasets ++ ["hypersim"] ++ vvpStoredDatasets
    ++ ["coco-pseudo", "cities360_distort"]

/-- The absolute vanishing point the angle branch computes: horizon and
relative vanishing point from (pitch, roll, vfov) converted to radians, then
the absolute vanishing point from both. -/
noncomputable def angleVP {H V : Type} (np_pi : ℝ) (api : PanoCamAPI H V)
    (d : DatasetDict) : ℝ × ℝ × ℝ :=
  api.getAbsVVP d.height d.width
    (api.getRelativeHorizonLineFromAngles (d.pitch / 180 * np_pi)
      (d.roll / 180 * np_pi) (d.vfov / 180 * np_pi) d.height d.width)
    (api.getRelativeVVP (d.pitch / 180 * np_pi)
      (d.roll / 180 * np_pi) (d.vfov / 180 * np_pi) d.height d.width)

/-- GravityTransform.get_input_label.  Python local-variable semantics are
made explicit: `Option` tracks whether the locals `absvvp` (inner layer) and
`gt_gfield_original` (outer `Option` of the second block) have been assigned,
and reading an unassigned local is Except.error GTErr.unboundLocalError.
`np_pi` stands for the external numpy constant np.pi and `store` for
read_hdf5.  The three blocks mirror the source: the dataset-name dispatch for
`absvvp`, the is_train-gated materialization of `gt_gfield_original`, and the
final store-backed overrides for "coco-pseudo" and "cities360_distort". -/
noncomputable def get_input_label {H V : Type} (np_pi : ℝ) (api : PanoCamAPI H V)
    (store : String → Arr3) (is_train : Bool) (d : DatasetDict) :
    Except GTErr ((ℝ × ℝ × ℝ) × Option Arr3) :=
  let absvvpOpt : Except GTErr (Option (ℝ × ℝ × ℝ)) :=
    if d.dataset ∈ angleDatasets then
      Except.ok (some (angleVP np_pi api d))
    else if d.dataset = "hypersim" then Except.ok (some d.vvp_abs)
    else if d.dataset ∈ vvpStoredDatasets then Except.ok (some d.vvp_abs)
    else if d.dataset = "coco-pseudo" then Except.ok none
    else if d.dataset = "cities360_distort" then Except.ok (some (0, 0, 0))
    else Except.error GTErr.notImplementedError
  match absvvpOpt with
  | Except.error e => Except.error e
  | Except.ok absvvp? =>
    let gfieldOpt : Except GTErr (Option (Option Arr3)) :=
      if is_train then
        if d.dataset ∉ (["cities360_distort"] : List String) then
          Except.ok (some none)
        else Except.ok none
      else
        if d.dataset ∉ (["cities360_distort"] : List String) then
          match absvvp? with
          | none => Except.error GTErr.unboundLocalError
          | some v =>
            Except.ok (some (some (api.getGravityField d.height d.width v)))
        else Except.ok none
    match gfieldOpt with
    | Except.error e => Except.error e
    | Except.ok gt? =>
      if d.dataset = "coco-pseudo" then
        Except.ok ((0, 0, 0), some (transpose120 (store d.gravity_file_name)))
      else if d.dataset = "cities360_distort" then
        Except.ok ((0, 0, 0), some (astype_float32 (store d.gravity_file_name)))
      else
        match absvvp?, gt? with
        | some v, some g => Except.ok (v, g)
        | _, _ => Except.error GTErr.unboundLocalError

/-- One sub-evaluator of PerspectiveEvaluator (gravity, latitude or param):
an opaque collaborator exposing process and evaluate, producing partial
records keyed by task name with payloads of type α. -/
structure SubEvaluator (I O α : Type) where
  process : I → O → List (String × α)
  evaluate : List (List (String × α)) → List (String × α)

/-- Insert or overwrite one key in an association list, keeping the position
of an existing key (one key of Python's dict.update). -/
def dictInsert {α : Type} : List (String × α) → String → α → List (String × α)
  | [], k, v => [(k, v)]
  | p :: rest, k, v =>
    if p.1 = k then (k, v) :: rest else p :: dictInsert rest k v

/-- Python's dict.update: fold every entry of the new mapping into the
accumulator, overwriting silently on key collision. -/
def dictUpdate {α : Type} (d new : List (String × α)) : List (String × α) :=
  new.foldl (fun acc p => dictInsert acc p.1 p.2) d

/-- The per-example record built in PerspectiveEvaluator.process: start from
an empty dict, then `ret.update(evaluator.process(input, output))` for each
sub-evaluator in order. -/
def processOne {I O α : Type} (evals : List (SubEvaluator I O α))
    (i : I) (o : O) : List (String × α) :=
  evals.foldl (fun acc e => dictUpdate acc (e.process i o)) []

/-- detectron2's comm.gather(data, dst): the destination rank receives every
worker's list in rank order; every other rank receives an empty list. -/
def comm_gather {R : Type} (world : List (List R)) (dst rank : ℕ) :
    List (List R) :=
  if rank = dst then world else []

/-- detectron2's comm.is_main_process(): rank 0 is the coordinator. -/
def is_main_process (rank : ℕ) : Bool := rank == 0

/-- The final metrics fold of PerspectiveEvaluator.evaluate:
`results.update(evaluator.evaluate(predictions))` over the sub-evaluators. -/
def evalResults {I O α : Type} (evals : List (SubEvaluator I O α))
    (predictions : List (List (String × α))) : List (String × α) :=
  evals.foldl (fun acc e => dictUpdate acc (e.evaluate predictions)) []

namespace PerspectiveEvaluator

/-- PerspectiveEvaluator.process over one batch: zip inputs with outputs and
append one merged record per pair to the local predictions buffer. -/
def process {I O α : Type} (evals : List (SubEvaluator I O α))
    (inputs : List I) (outputs : List O)
    (predictions : List (List (String × α))) : List (List (String × α)) :=
  predictions ++ (List.zip inputs outputs).map (fun p => processOne evals p.1 p.2)

/-- PerspectiveEvaluator.evaluate.  `world` holds every worker's local
predictions buffer in rank order and `rank` is the calling worker.  In the
distributed branch the buffers are gathered to rank 0 and flattened with
itertools.chain; every non-main rank returns the empty dict; otherwise the
metrics fold runs over the flattened predictions. -/
def evaluate {I O α : Type} (distributed : Bool)
    (evals : List (SubEvaluator I O α))
    (world : List (List (List (String × α)))) (rank : ℕ) :
    List (String × α) :=
  if distributed then
    let predictions := (comm_gather world 0 rank).flatten
    if !is_main_process rank then []
    else evalResults evals predictions
  else
    evalResults evals (world.getD rank [])

end PerspectiveEvaluator

/-- Concrete binning collaborator used for closed instances: its exact output
never matters, only that it is visibly distinct from the identity. -/
def encB0 : Arr3 → ℕ → Arr3 := fun _ n => { shape := (1, n, n), data := fun _ _ _ => 9 }

/-- A concrete 1x1x2 channel-last field used for closed instances. -/
def g0 : Arr3 := { shape := (1, 1, 2), data := fun i j k => i + 2 * j + 3 * k }

/-- Concrete geometry collaborator over trivial horizon and relative-VP
types, used for closed instances; its outputs are fixed values. -/
noncomputable def apiU : PanoCamAPI Unit Unit :=
  { getRelativeHorizonLineFromAngles := fun _ _ _ _ _ => ()
    getRelativeVVP := fun _ _ _ _ _ => ()
    getAbsVVP := fun _ _ _ _ => (1, 2, 3)
    getGravityField := fun _ _ _ => g0 }

/-- Concrete keyed binary store for closed instances: every key yields g0. -/
def storeU : String → Arr3 := fun _ => g0

/-- A concrete angle-labeled example (dataset "cities360"). -/
noncomputable def dAngleEx : DatasetDict :=
  { dataset := "cities360", height := 2, width := 2, roll := 0, pitch := 0,
    vfov := 0, vvp_abs := (0, 0, 0), gravity_file_name := "a" }

/-- A concrete pseudo-labeled example (dataset "coco-pseudo"). -/
noncomputable def dCocoEx : DatasetDict :=
  { dataset := "coco-pseudo", height := 2, width := 2, roll := 0, pitch := 0,
    vfov := 0, vvp_abs := (0, 0, 0), gravity_file_name := "f" }

/-- A concrete synthetic-distortion example (dataset "cities360_distort"). -/
noncomputable def dCityEx : DatasetDict :=
  { dataset := "cities360_distort", height := 2, width := 2, roll := 0,
    pitch := 0, vfov := 0, vvp_abs := (0, 0, 0), gravity_file_name := "c" }

/-- A concrete example whose dataset name is outside the dispatch ladder. -/
noncomputable def dUnknownEx : DatasetDict :=
  { dataset := "imagenet", height := 2, width := 2, roll := 0, pitch := 0,
    vfov := 0, vvp_abs := (0, 0, 0), gravity_file_name := "u" }

/-- A concrete gravity-style sub-evaluator over integer payloads: evaluate
reports the number of reduced records under its task name. -/
def evGravity : SubEvaluator ℤ ℤ ℤ :=
  { process := fun _ _ => [("gravity", 1)]
    evaluate := fun preds => [("gravity", (preds.length : ℤ))] }

/-- A second concrete sub-evaluator deliberately colliding on the same task
name with a different payload. -/
def evGravity2 : SubEvaluator ℤ ℤ ℤ :=
  { process := fun _ _ => [("gravity", 2)]
    evaluate := fun _ => [("gravity", 2)] }

/-- A two-worker world of per-worker prediction buffers of lengths 1 and 2. -/
def worldEx : List (List (List (String × ℤ))) :=
  [[[("gravity", 1)]], [[("gravity", 1)], [("gravity", 1)]]]

/- ------------------------------------------------------------------ -/
/- Helper lemmas shared between the claims.                            -/
/- ------------------------------------------------------------------ -/

theorem sq_sum_pos (v : ℝ × ℝ) (h : v ≠ (0, 0)) : 0 < v.1 ^ 2 + v.2 ^ 2 := by
  have h12 : v.1 ≠ 0 ∨ v.2 ≠ 0 := by
    by_contra hc
    push_neg at hc
    exact h (Prod.ext hc.1 hc.2)
  rcases h12 with h1 | h2
  · have := sq_nonneg v.2
    have h1p : 0 < v.1 ^ 2 := by positivity
    linarith
  · have := sq_nonneg v.1
    have h2p : 0 < v.2 ^ 2 := by positivity
    linarith

theorem sklearn_normalize_row_eq (v : ℝ × ℝ) :
    sklearn_normalize_row v = normalize_spec v := by
  unfold sklearn_normalize_row normalize_spec
  by_cases h : v = (0, 0)
  · subst h
    simp
  · have hpos := sq_sum_pos v h
    have hn : Real.sqrt (v.1 ^ 2 + v.2 ^ 2) ≠ 0 :=
      ne_of_gt (Real.sqrt_pos.mpr hpos)
    have h0 : ¬ v = 0 := by simpa using h
    simp [hn, h, h0]

theorem l2norm_normalize_spec (v : ℝ × ℝ) (h : v ≠ (0, 0)) :
    l2norm (normalize_spec v) = 1 := by
  have hpos := sq_sum_pos v h
  have hn : 0 < Real.sqrt (v.1 ^ 2 + v.2 ^ 2) := Real.sqrt_pos.mpr hpos
  have hn2 : Real.sqrt (v.1 ^ 2 + v.2 ^ 2) ^ 2 = v.1 ^ 2 + v.2 ^ 2 :=
    Real.sq_sqrt hpos.le
  unfold l2norm normalize_spec
  rw [if_neg h]
  have key : (v.1 / Real.sqrt (v.1 ^ 2 + v.2 ^ 2)) ^ 2
      + (v.2 / Real.sqrt (v.1 ^ 2 + v.2 ^ 2)) ^ 2 = 1 := by
    rw [div_pow, div_pow, div_add_div_same, hn2, div_self (ne_of_gt hpos)]
  rw [key, Real.sqrt_one]

theorem l2norm_comp_mul (a b s : ℝ) : l2norm (a * s, b * s) = l2norm (a, b) * |s| := by
  unfold l2norm
  have : (a * s) ^ 2 + (b * s) ^ 2 = (a ^ 2 + b ^ 2) * s ^ 2 := by ring
  rw [this, Real.sqrt_mul (by positivity), Real.sqrt_sq_eq_abs]

theorem startPt_grid (im_w row col : ℕ) (h : col < im_w) :
    startPt im_w (row * im_w + col) = ((col : ℝ), (row : ℝ)) := by
  have hw : 0 < im_w := lt_of_le_of_lt (Nat.zero_le _) h
  unfold startPt
  have hmod : (row * im_w + col) % im_w = col := by
    rw [mul_comm, Nat.mul_add_mod, Nat.mod_eq_of_lt h]
  have hdiv : (row * im_w + col) / im_w = row := by
    rw [mul_comm, Nat.mul_add_div hw, Nat.div_eq_of_lt h, Nat.add_zero]
  rw [hmod, hdiv]

theorem absvvp_to_arrow_entry (im_h im_w : ℕ) (x y s : ℝ) (row col : ℕ)
    (hcol : col < im_w) :
    ((absvvp_to_arrow im_h im_w (x, y, s)).data row col 0,
      (absvvp_to_arrow im_h im_w (x, y, s)).data row col 1)
      = ((normalize_spec (x - col, y - row)).1 * s,
         (normalize_spec (x - col, y - row)).2 * s) := by
  unfold absvvp_to_arrow arrowAt
  simp only [startPt_grid im_w row col hcol, sklearn_normalize_row_eq]
  simp

/- ------------------------------------------------------------------ -/
/- Claim theorems: field synthesis and encoding.                       -/
/- ------------------------------------------------------------------ -/

/-- C1: for every image height h, width w and absolute vanishing point
(x, y, s), absvvp_to_arrow returns an array of shape (h, w, 2) whose entry at
pixel (row, col) is the displacement from the pixel position (col, row) to
(x, y), normalized to unit length (the zero displacement clamps to zero),
multiplied by the signed scale s; the normalization really is to unit length
whenever the displacement is nonzero. -/
theorem c1_field_synthesis (im_h im_w : ℕ) (x y s : ℝ) (row col : ℕ)
    (hrow : row < im_h) (hcol : col < im_w) :
    (absvvp_to_arrow im_h im_w (x, y, s)).shape = (im_h, im_w, 2) ∧
    ((absvvp_to_arrow im_h im_w (x, y, s)).data row col 0,
      (absvvp_to_arrow im_h im_w (x, y, s)).data row col 1)
      = ((normalize_spec (x - col, y - row)).1 * s,
         (normalize_spec (x - col, y - row)).2 * s) ∧
    ((x - col, y - row) ≠ ((0 : ℝ), (0 : ℝ)) →
      l2norm (normalize_spec (x - col, y - row)) = 1) := by
  refine ⟨rfl, absvvp_to_arrow_entry im_h im_w x y s row col hcol, ?_⟩
  exact fun hd => l2norm_normalize_spec _ hd

/-- C1 witness: the spec's example scenario, height=2, width=2, VP=(0,0,5):
the pixel at (row, col) = (1, 1) receives normalize((0,0)-(1,1)) * 5, whose
first component -5/sqrt 2 lies strictly between -3.55 and -3.53. -/
theorem c1_field_synthesis_witness :
    ((absvvp_to_arrow 2 2 (0, 0, 5)).data 1 1 0,
      (absvvp_to_arrow 2 2 (0, 0, 5)).data 1 1 1)
      = ((normalize_spec ((0 : ℝ) - 1, (0 : ℝ) - 1)).1 * 5,
         (normalize_spec ((0 : ℝ) - 1, (0 : ℝ) - 1)).2 * 5) ∧
    (normalize_spec ((0 : ℝ) - 1, (0 : ℝ) - 1)).1 * 5 < -3.53 ∧
    -3.55 < (normalize_spec ((0 : ℝ) - 1, (0 : ℝ) - 1)).1 * 5 := by
  have h := (c1_field_synthesis 2 2 0 0 5 1 1 (by decide) (by decide)).2.1
  push_cast at h
  have hne : (((0 : ℝ) - 1, (0 : ℝ) - 1) : ℝ × ℝ) ≠ (0, 0) := by
    intro hc
    have h1 := congrArg Prod.fst hc
    norm_num at h1
  have hs0 : (0 : ℝ) < Real.sqrt 2 := Real.sqrt_pos.mpr (by norm_num)
  have hub : Real.sqrt 2 < 1.4143 := by
    rw [Real.sqrt_lt' (by norm_num)]
    norm_num
  have hlb : (1.4142 : ℝ) < Real.sqrt 2 := by
    rw [Real.lt_sqrt (by norm_num)]
    norm_num
  have h2 : ((0 : ℝ) - 1) ^ 2 + ((0 : ℝ) - 1) ^ 2 = 2 := by norm_num
  have hval : (normalize_spec ((0 : ℝ) - 1, (0 : ℝ) - 1)).1 * 5
      = -(5 / Real.sqrt 2) := by
    unfold normalize_spec
    rw [if_neg hne]
    simp only [h2]
    ring
  refine ⟨h, ?_, ?_⟩
  · rw [hval, show (-3.53 : ℝ) = -(3.53 : ℝ) by norm_num, neg_lt_neg_iff,
      lt_div_iff₀ hs0]
    nlinarith
  · rw [hval, show (-3.55 : ℝ) = -(3.55 : ℝ) by norm_num, neg_lt_neg_iff,
      div_lt_iff₀ hs0]
    nlinarith

/-- C6 counterexample: for height=1, width=1 and VP=(3,4,2) — a nonzero
scale and a nonzero displacement, so no degeneracy clamp — the single
synthesized vector is (6/5, 8/5), whose length is 2, not 1. -/
theorem c6_counterexample :
    (((3 : ℝ) - 0, (4 : ℝ) - 0) : ℝ × ℝ) ≠ (0, 0) ∧ (2 : ℝ) ≠ 0 ∧
    l2norm ((absvvp_to_arrow 1 1 (3, 4, 2)).data 0 0 0,
            (absvvp_to_arrow 1 1 (3, 4, 2)).data 0 0 1) ≠ 1 := by
  refine ⟨by intro hc; have h1 := congrArg Prod.fst hc; norm_num at h1,
    by norm_num, ?_⟩
  have he := absvvp_to_arrow_entry 1 1 3 4 2 0 0 (by decide)
  push_cast at he
  rw [he]
  have hne : (((3 : ℝ) - 0, (4 : ℝ) - 0) : ℝ × ℝ) ≠ (0, 0) := by
    intro hc
    have h1 := congrArg Prod.fst hc
    norm_num at h1
  have h25 : ((3 : ℝ) - 0) ^ 2 + ((4 : ℝ) - 0) ^ 2 = 25 := by norm_num
  have hs25 : Real.sqrt 25 = 5 := by
    rw [show (25 : ℝ) = 5 ^ 2 by norm_num, Real.sqrt_sq (by norm_num)]
  have hval : normalize_spec ((3 : ℝ) - 0, (4 : ℝ) - 0) = (3 / 5, 4 / 5) := by
    unfold normalize_spec
    rw [if_neg hne]
    simp only [h25, hs25]
    norm_num
  rw [hval]
  unfold l2norm
  rw [show ((3 : ℝ) / 5 * 2) ^ 2 + ((4 : ℝ) / 5 * 2) ^ 2 = 4 by norm_num,
    show (4 : ℝ) = 2 ^ 2 by norm_num, Real.sqrt_sq (by norm_num)]
  norm_num

/-- C6 amended: for every height, width and absolute VP (x, y, s) with s
nonzero, the synthesized vector at any non-degenerate pixel (nonzero
displacement to the VP) has length |s| — unit length exactly when |s| = 1 —
while degeneracy is clamped to the zero vector. -/
theorem c6_amended_vector_length (im_h im_w : ℕ) (x y s : ℝ) (row col : ℕ)
    (hrow : row < im_h) (hcol : col < im_w) (hs : s ≠ 0)
    (hd : ((x - col, y - row) : ℝ × ℝ) ≠ (0, 0)) :
    l2norm ((absvvp_to_arrow im_h im_w (x, y, s)).data row col 0,
            (absvvp_to_arrow im_h im_w (x, y, s)).data row col 1) = |s| := by
  rw [absvvp_to_arrow_entry im_h im_w x y s row col hcol]
  rw [show ((normalize_spec (x - col, y - row)).1 * s,
        (normalize_spec (x - col, y - row)).2 * s)
      = ((normalize_spec (x - col, y - row)).1 * s,
         (normalize_spec (x - col, y - row)).2 * s) from rfl]
  have hn := l2norm_normalize_spec _ hd
  calc l2norm ((normalize_spec (x - col, y - row)).1 * s,
        (normalize_spec (x - col, y - row)).2 * s)
      = l2norm ((normalize_spec (x - col, y - row)).1,
          (normalize_spec (x - col, y - row)).2) * |s| := by
        rw [l2norm_comp_mul]
    _ = |s| := by
        rw [show ((normalize_spec (x - col, y - row)).1,
            (normalize_spec (x - col, y - row)).2)
          = normalize_spec (x - col, y - row) from rfl, hn, one_mul]

/-- C6 amended witness: height=1, width=1, VP=(3,4,5): the vector at pixel
(0,0) has length |5| = 5. -/
theorem c6_amended_vector_length_witness :
    l2norm ((absvvp_to_arrow 1 1 (3, 4, 5)).data 0 0 0,
            (absvvp_to_arrow 1 1 (3, 4, 5)).data 0 0 1) = |(5 : ℝ)| := by
  have h := c6_amended_vector_length 1 1 3 4 5 0 0 (by decide) (by decide)
    (by norm_num)
    (by intro hc; have h1 := congrArg Prod.fst hc; push_cast at h1; norm_num at h1)
  push_cast at h
  exact h

/-- C10: field synthesis is total at a degenerate pixel: when the vanishing
point (x, y) coincides exactly with the pixel center (col, row), the
zero-length displacement is clamped to the zero vector (sklearn's row
normalization replaces a zero norm by 1, so the zero row stays zero), rather
than producing an error or an undefined entry. -/
theorem c10_degenerate_pixel_clamps_to_zero (im_h im_w : ℕ) (x y s : ℝ)
    (row col : ℕ) (hrow : row < im_h) (hcol : col < im_w)
    (hx : x = col) (hy : y = row) :
    ((absvvp_to_arrow im_h im_w (x, y, s)).data row col 0,
     (absvvp_to_arrow im_h im_w (x, y, s)).data row col 1) = (0, 0) := by
  rw [absvvp_to_arrow_entry im_h im_w x y s row col hcol]
  subst hx hy
  simp [normalize_spec]

/-- C10 witness: height=1, width=1, VP=(0,0,7) sits exactly on pixel (0,0);
the synthesized vector there is the zero vector. -/
theorem c10_degenerate_pixel_witness :
    ((absvvp_to_arrow 1 1 (0, 0, 7)).data 0 0 0,
     (absvvp_to_arrow 1 1 (0, 0, 7)).data 0 0 1) = (0, 0) :=
  c10_degenerate_pixel_clamps_to_zero 1 1 0 0 7 0 0 (by decide) (by decide)
    (by norm_num) (by norm_num)

/-- C9: encoding with loss_type = "regression" is the identity up to layout:
the result is exactly the channel-first float conversion of the input field,
its entry at (channel c, row i, col j) equals the input entry at (i, j, c),
and its shape is the channel-first permutation of the input shape. -/
theorem c9_regression_is_identity (encB : Arr3 → ℕ → Arr3) (nc : ℕ) (g : Arr3) :
    to_tensor_from_field encB "regression" nc g = astype_float32 (transpose201 g) ∧
    (∀ c i j, (to_tensor_from_field encB "regression" nc g).data c i j
      = g.data i j c) ∧
    (to_tensor_from_field encB "regression" nc g).shape
      = (g.shape.2.2, g.shape.1, g.shape.2.1) :=
  ⟨rfl, fun _ _ _ => rfl, rfl⟩

/-- C4 counterexample: with the unknown loss type "hinge", the encoder does
not fail: it returns the channel-first converted field, exactly what the
"regression" branch returns, so no UnsupportedLossType error is raised. -/
theorem c4_counterexample :
    to_tensor_from_field encB0 "hinge" 4 g0 = astype_float32 (transpose201 g0) ∧
    to_tensor_from_field encB0 "hinge" 4 g0
      = to_tensor_from_field encB0 "regression" 4 g0 ∧
    to_tensor encB0 "hinge" 4 1 1 (3, 4, 5)
      = astype_float32 (transpose201 (absvvp_to_arrow 1 1 (3, 4, 5))) :=
  ⟨rfl, rfl, rfl⟩

/-- C4 amended: for every field and any loss_type outside {"regression",
"classification"}, to_tensor and to_tensor_from_field silently fall through:
they return the channel-first float field unbinned (identical to the
regression behaviour) and raise no error, because the source's if/elif
ladder has no else branch. -/
theorem c4_amended_silent_fallthrough (encB : Arr3 → ℕ → Arr3) (lt : String)
    (nc im_h im_w : ℕ) (vp : ℝ × ℝ × ℝ) (g : Arr3)
    (h1 : lt ≠ "regression") (h2 : lt ≠ "classification") :
    to_tensor_from_field encB lt nc g = astype_float32 (transpose201 g) ∧
    to_tensor_from_field encB lt nc g = to_tensor_from_field encB "regression" nc g ∧
    to_tensor encB lt nc im_h im_w vp
      = astype_float32 (transpose201 (absvvp_to_arrow im_h im_w vp)) := by
  refine ⟨?_, ?_, ?_⟩ <;> simp [to_tensor_from_field, to_tensor, h1, h2]

/-- C4 amended witness: the loss type "hinge" at a concrete field and
vanishing point. -/
theorem c4_amended_silent_fallthrough_witness :
    to_tensor_from_field encB0 "hinge" 9 g0 = astype_float32 (transpose201 g0) ∧
    to_tensor_from_field encB0 "hinge" 9 g0
      = to_tensor_from_field encB0 "regression" 9 g0 ∧
    to_tensor encB0 "hinge" 9 2 2 (0, 0, 5)
      = astype_float32 (transpose201 (absvvp_to_arrow 2 2 (0, 0, 5))) :=
  c4_amended_silent_fallthrough encB0 "hinge" 9 2 2 (0, 0, 5) g0
    (by decide) (by decide)

theorem lookup_dictInsert {α : Type} (d : List (String × α)) (k : String) (v : α) :
    (dictInsert d k v).lookup k = some v := by
  induction d with
  | nil => simp [dictInsert, List.lookup]
  | cons p rest ih =>
    obtain ⟨a, b⟩ := p
    by_cases hp : a = k
    · subst hp
      simp [dictInsert, List.lookup]
    · have hp' : ¬ (k = a) := fun he => hp he.symm
      have hba : (k == a) = false := by
        simp [hp']
      simp [dictInsert, hp, hba, List.lookup, ih]

/- ------------------------------------------------------------------ -/
/- Claim theorems: ground-truth dispatch.                              -/
/- ------------------------------------------------------------------ -/

/-- C7: for every example whose dataset name is outside the enumerated
dispatch set, get_input_label fails with NotImplementedError in both
training and evaluation mode — it returns the error, never a default. -/
theorem c7_unknown_dataset_errors {H V : Type} (np_pi : ℝ) (api : PanoCamAPI H V)
    (store : String → Arr3) (d : DatasetDict) (b : Bool)
    (h : d.dataset ∉ knownDatasets) :
    get_input_label np_pi api store b d
      = Except.error GTErr.notImplementedError := by
  have h1 : d.dataset ∉ angleDatasets := fun hm => h (by simp [knownDatasets, hm])
  have h2 : d.dataset ≠ "hypersim" := fun hm => h (by simp [knownDatasets, hm])
  have h3 : d.dataset ∉ vvpStoredDatasets := fun hm => h (by simp [knownDatasets, hm])
  have h4 : d.dataset ≠ "coco-pseudo" := fun hm => h (by simp [knownDatasets, hm])
  have h5 : d.dataset ≠ "cities360_distort" := fun hm => h (by simp [knownDatasets, hm])
  cases b <;> simp [get_input_label, h1, h2, h3, h4, h5]

/-- C7 witness: an "imagenet" example fails with NotImplementedError in
evaluation mode (and its name is indeed outside the dispatch set). -/
theorem c7_unknown_dataset_errors_witness :
    dUnknownEx.dataset ∉ knownDatasets ∧
    get_input_label 0 apiU storeU false dUnknownEx
      = Except.error GTErr.notImplementedError :=
  ⟨by decide, c7_unknown_dataset_errors 0 apiU storeU dUnknownEx false (by decide)⟩

/-- C3: ground-truth field materialization in get_input_label is gated by
is_train.  For angle-labeled and stored-vanishing-point families the field is
None in training mode and eagerly synthesized from the resolved vanishing
point in evaluation mode.  "cities360_distort" loads its field from the store
in both modes.  "coco-pseudo" loads from the store only in training mode: in
evaluation mode the code reads the never-assigned local `absvvp` while
eagerly synthesizing, so it raises UnboundLocalError instead of returning the
store-backed field — the code slip this claim's spec sentence contradicts. -/
theorem c3_mode_gating {H V : Type} (np_pi : ℝ) (api : PanoCamAPI H V)
    (store : String → Arr3) (d : DatasetDict) :
    (d.dataset ∈ angleDatasets →
      get_input_label np_pi api store true d
        = Except.ok (angleVP np_pi api d, none) ∧
      get_input_label np_pi api store false d
        = Except.ok (angleVP np_pi api d,
            some (api.getGravityField d.height d.width (angleVP np_pi api d)))) ∧
    ((d.dataset = "hypersim" ∨ d.dataset ∈ vvpStoredDatasets) →
      get_input_label np_pi api store true d = Except.ok (d.vvp_abs, none) ∧
      get_input_label np_pi api store false d
        = Except.ok (d.vvp_abs,
            some (api.getGravityField d.height d.width d.vvp_abs))) ∧
    (d.dataset = "cities360_distort" →
      ∀ b : Bool, get_input_label np_pi api store b d
        = Except.ok ((0, 0, 0),
            some (astype_float32 (store d.gravity_file_name)))) ∧
    (d.dataset = "coco-pseudo" →
      get_input_label np_pi api store true d
        = Except.ok ((0, 0, 0),
            some (transpose120 (store d.gravity_file_name))) ∧
      get_input_label np_pi api store false d
        = Except.error GTErr.unboundLocalError) := by
  refine ⟨?_, ?_, ?_, ?_⟩
  · intro h
    have hne1 : d.dataset ≠ "cities360_distort" := by
      intro he
      rw [he] at h
      exact absurd h (by decide)
    have hne2 : d.dataset ≠ "coco-pseudo" := by
      intro he
      rw [he] at h
      exact absurd h (by decide)
    constructor <;> simp [get_input_label, h, hne1, hne2, angleVP]
  · intro h
    rcases h with h | h
    · have hna : ("hypersim" : String) ∉ angleDatasets := by decide
      have hne1 : ("hypersim" : String) ≠ "cities360_distort" := by decide
      have hne2 : ("hypersim" : String) ≠ "coco-pseudo" := by decide
      constructor <;> simp [get_input_label, h, hna, hne1, hne2]
    · have hna : d.dataset ∉ angleDatasets := by
        intro he
        have hd : ∀ x ∈ vvpStoredDatasets, x ∉ angleDatasets := by decide
        exact hd _ h he
      have hnh : d.dataset ≠ "hypersim" := by
        intro he
        rw [he] at h
        exact absurd h (by decide)
      have hne1 : d.dataset ≠ "cities360_distort" := by
        intro he
        rw [he] at h
        exact absurd h (by decide)
      have hne2 : d.dataset ≠ "coco-pseudo" := by
        intro he
        rw [he] at h
        exact absurd h (by decide)
      constructor <;> simp [get_input_label, h, hna, hnh, hne1, hne2]
  · intro h b
    have hna : ("cities360_distort" : String) ∉ angleDatasets := by decide
    have hnv : ("cities360_distort" : String) ∉ vvpStoredDatasets := by decide
    have hnh : ("cities360_distort" : String) ≠ "hypersim" := by decide
    have hne2 : ("cities360_distort" : String) ≠ "coco-pseudo" := by decide
    cases b <;> simp [get_input_label, h, hna, hnv, hnh, hne2]
  · intro h
    have hna : ("coco-pseudo" : String) ∉ angleDatasets := by decide
    have hnv : ("coco-pseudo" : String) ∉ vvpStoredDatasets := by decide
    have hnh : ("coco-pseudo" : String) ≠ "hypersim" := by decide
    have hne1 : ("coco-pseudo" : String) ≠ "cities360_distort" := by decide
    constructor <;> simp [get_input_label, h, hna, hnv, hnh, hne1]

/-- C3 witness: concrete instances of three gating cases — an angle-labeled
example in training mode yields (vanishing point, None); the failing input,
a "coco-pseudo" example in evaluation mode, raises UnboundLocalError; a
"cities360_distort" example in training mode loads its field from the store. -/
theorem c3_mode_gating_witness :
    get_input_label 0 apiU storeU true dAngleEx
      = Except.ok (angleVP 0 apiU dAngleEx, none) ∧
    get_input_label 0 apiU storeU false dCocoEx
      = Except.error GTErr.unboundLocalError ∧
    get_input_label 0 apiU storeU true dCityEx
      = Except.ok ((0, 0, 0),
          some (astype_float32 (storeU dCityEx.gravity_file_name))) :=
  ⟨((c3_mode_gating 0 apiU storeU dAngleEx).1 (by decide)).1,
   ((c3_mode_gating 0 apiU storeU dCocoEx).2.2.2 (by decide)).2,
   (c3_mode_gating 0 apiU storeU dCityEx).2.2.1 (by decide) true⟩

/-- C5: for every "coco-pseudo" example, get_input_label in training mode
returns the fixed vanishing point (0,0,0) together with the stored raw array
transposed by (1,2,0) — the leading (channel) axis moved to the end, i.e.
entry (i,j,k) of the returned field is entry (k,i,j) of the raw array and a
channel-first (c,h,w) shape becomes channel-last (h,w,c) — while in
evaluation mode the code raises UnboundLocalError before the load (the code
slip: the eager synthesis guard omits "coco-pseudo" and reads the unassigned
local `absvvp`). -/
theorem c5_coco_pseudo_resolve {H V : Type} (np_pi : ℝ) (api : PanoCamAPI H V)
    (store : String → Arr3) (d : DatasetDict) (h : d.dataset = "coco-pseudo") :
    get_input_label np_pi api store true d
      = Except.ok ((0, 0, 0),
          some (transpose120 (store d.gravity_file_name))) ∧
    (∀ i j k, (transpose120 (store d.gravity_file_name)).data i j k
      = (store d.gravity_file_name).data k i j) ∧
    (∀ c hh ww, (store d.gravity_file_name).shape = (c, hh, ww) →
      (transpose120 (store d.gravity_file_name)).shape = (hh, ww, c)) ∧
    get_input_label np_pi api store false d
      = Except.error GTErr.unboundLocalError := by
  have hna : ("coco-pseudo" : String) ∉ angleDatasets := by decide
  have hnv : ("coco-pseudo" : String) ∉ vvpStoredDatasets := by decide
  have hnh : ("coco-pseudo" : String) ≠ "hypersim" := by decide
  have hne1 : ("coco-pseudo" : String) ≠ "cities360_distort" := by decide
  refine ⟨?_, fun i j k => rfl, ?_, ?_⟩
  · simp [get_input_label, h, hna, hnv, hnh, hne1]
  · intro c hh ww hs
    simp [transpose120, hs]
  · simp [get_input_label, h, hna, hnv, hnh, hne1]

/-- C5 witness: the concrete "coco-pseudo" example in training mode returns
VP (0,0,0) and the transposed stored field; in evaluation mode it raises. -/
theorem c5_coco_pseudo_resolve_witness :
    get_input_label 0 apiU storeU true dCocoEx
      = Except.ok ((0, 0, 0),
          some (transpose120 (storeU dCocoEx.gravity_file_name))) ∧
    get_input_label 0 apiU storeU false dCocoEx
      = Except.error GTErr.unboundLocalError := by
  have h := c5_coco_pseudo_resolve 0 apiU storeU dCocoEx (by decide)
  exact ⟨h.1, h.2.2.2⟩

/- ------------------------------------------------------------------ -/
/- Claim theorems: evaluator composition and distributed reduction.    -/
/- ------------------------------------------------------------------ -/

/-- C2: with the distributed flag set, PerspectiveEvaluator.evaluate gathers
every worker's record list onto rank 0 and flattens them worker-major then
within-worker (the flattened length is the sum of the per-worker lengths);
rank 0 returns the merged metrics computed over that flattened list, and
every non-zero rank returns the empty mapping. -/
theorem c2_distributed_reduction {I O α : Type} (evals : List (SubEvaluator I O α))
    (world : List (List (List (String × α)))) (w : ℕ) (hw : w ≠ 0) :
    PerspectiveEvaluator.evaluate true evals world 0
      = evalResults evals world.flatten ∧
    world.flatten.length = (world.map List.length).sum ∧
    PerspectiveEvaluator.evaluate true evals world w = [] := by
  refine ⟨?_, ?_, ?_⟩
  · simp [PerspectiveEvaluator.evaluate, comm_gather, is_main_process]
  · simp
  · simp [PerspectiveEvaluator.evaluate, comm_gather, is_main_process, hw]

/-- C2 witness: two simulated workers with buffers of lengths 1 and 2; rank 0
returns the metrics over the flattened 3 records, rank 1 returns the empty
mapping, and indeed the coordinator metric counts all 3 records. -/
theorem c2_distributed_reduction_witness :
    (PerspectiveEvaluator.evaluate true [evGravity] worldEx 0
      = evalResults [evGravity] worldEx.flatten ∧
    worldEx.flatten.length = (worldEx.map List.length).sum ∧
    PerspectiveEvaluator.evaluate true [evGravity] worldEx 1 = []) ∧
    evalResults [evGravity] worldEx.flatten = [("gravity", 3)] :=
  ⟨c2_distributed_reduction [evGravity] worldEx 1 (by decide), rfl⟩

/-- C8 counterexample: two sub-evaluators whose partial records share the
task name "gravity" are merged silently by dict update — the later evaluator
overwrites the earlier one's entry in both process and evaluate — and no
error of any kind is raised (the merged mapping is an ordinary value). -/
theorem c8_counterexample :
    (evGravity.process 0 0).lookup "gravity" = some 1 ∧
    (evGravity2.process 0 0).lookup "gravity" = some 2 ∧
    processOne [evGravity, evGravity2] 0 0 = [("gravity", 2)] ∧
    evalResults [evGravity, evGravity2] [] = [("gravity", 2)] :=
  ⟨rfl, rfl, rfl, rfl⟩

/-- C8 amended: task-name collisions between sub-evaluators are not detected:
PerspectiveEvaluator.process merges partial records with Python dict.update
semantics, so whenever a later sub-evaluator emits a key, the merged record
maps that key to the later evaluator's value, silently discarding any earlier
evaluator's entry; no ConfigurationError is raised. -/
theorem c8_amended_silent_overwrite {I O α : Type} (e1 e2 : SubEvaluator I O α)
    (i : I) (o : O) (k : String) (v : α) (h : e2.process i o = [(k, v)]) :
    (processOne [e1, e2] i o).lookup k = some v := by
  unfold processOne
  simp only [List.foldl]
  rw [h]
  unfold dictUpdate
  simp only [List.foldl]
  exact lookup_dictInsert _ _ _

/-- C8 amended witness: the colliding concrete evaluators; the merged record
maps "gravity" to the second evaluator's value 2. -/
theorem c8_amended_silent_overwrite_witness :
    evGravity2.process 0 0 = [("gravity", 2)] ∧
    (processOne [evGravity, evGravity2] 0 0).lookup "gravity" = some 2 :=
  ⟨rfl, c8_amended_silent_overwrite evGravity evGravity2 0 0 "gravity" 2 rfl⟩
